import Mathlib

/-!
Verification of the ThreatGuard agent core (threatguard-agent-native), a
shallow embedding of the C sources into Lean 4.

The embedding covers:
* the security filter plugin
  (plugins/filter_threatguard_security/filter_threatguard_security.c and
  security_rules.c): msgpack records, rule matching, priority resolution,
  enrichment, and the rules-file line format;
* the platform output plugin
  (plugins/out_threatguard_platform/out_threatguard_platform.c): batching,
  flush triggering, transmission outcomes and failure accounting;
* the discovery plugin (plugins/in_threatguard_discovery): the collect
  cycle and adaptive configuration generation;
* the configuration loader (src/common/config.c): defaults, environment
  variables and the JSON configuration file.

msgpack strings are modelled as Lean `String`s of bytes; the C code packs
some string bodies together with their terminating NUL byte, which appears
here as a trailing `"\x00"` character.  Keys and values used by the claims
are flat (string / integer scalars inside one map), so map values are
modelled by a scalar type `MVal` and records by `Record`.
-/

set_option linter.unusedVariables false

namespace ThreatGuard

/-- A scalar msgpack value: a string or an integer.  `time(NULL)` and the
threat score pack as integers; everything the rules inspect is a string. -/
inductive MVal where
  | str : String → MVal
  | int : Int → MVal
  deriving DecidableEq, Repr

/-- A structured event: the ordered key/value pairs of a msgpack map.
Keys may be any msgpack object; the matchers skip non-string keys. -/
abbrev EventMap := List (MVal × MVal)

/-- A msgpack record entering the filter: a map (structured event) or a
bare scalar (non-map object). -/
inductive Record where
  | map : EventMap → Record
  | scalar : MVal → Record
  deriving DecidableEq, Repr

/-! ### Security rule model (security_rules.c) -/

/-- Action codes from security_rules.c. -/
def TG_SECURITY_ACTION_PASS : Int := 0
def TG_SECURITY_ACTION_FLAG : Int := 1
def TG_SECURITY_ACTION_DROP : Int := 2
def TG_SECURITY_ACTION_ENRICH : Int := 3

/-- Rule type codes from security_rules.c. -/
def TG_RULE_TYPE_FIELD_MATCH : Int := 1
def TG_RULE_TYPE_FIELD_REGEX : Int := 2
def TG_RULE_TYPE_FIELD_EXISTS : Int := 3
def TG_RULE_TYPE_THREAT_INTEL : Int := 4
def TG_RULE_TYPE_BEHAVIORAL : Int := 5
def TG_RULE_TYPE_COMPLIANCE : Int := 6

/-- Compliance bit masks from threatguard.h (tg_compliance_t). -/
def TG_COMPLIANCE_PCI_DSS : Int := 1
def TG_COMPLIANCE_HIPAA : Int := 2
def TG_COMPLIANCE_SOX : Int := 4
def TG_COMPLIANCE_NIST : Int := 32

/-- struct tg_security_rule (security_rules.c); the statistics fields
(match_count, last_match, created) do not influence the chosen action and
are omitted. -/
structure SecurityRule where
  id : Int
  name : String
  type : Int
  priority : Int
  action : Int
  enabled : Bool
  field_name : String
  pattern : String
  compliance_type : Int
  deriving DecidableEq, Repr

/-- `strnstr(hay, pat, hay.size)`: the pattern occurs as a substring of the
value (an empty pattern always matches). -/
def containsSub (hay pat : String) : Bool :=
  decide (pat.toList <:+: hay.toList)

/-- tg_threat_intel_lookup (security_rules.c): the placeholder feed marks a
value malicious when it contains one of five fixed indicator strings. -/
def tg_threat_intel_lookup (s : String) : Bool :=
  ["192.168.1.666", "evil.com", "malware.exe", "backdoor.dll",
   "c2server.net"].any (fun ind => containsSub s ind)

/-- tg_security_check_field_match: some pair has the rule's field name as
string key and the rule's pattern as exact string value. -/
def tg_security_check_field_match (r : SecurityRule) (m : EventMap) : Bool :=
  m.any (fun p => p.1 == MVal.str r.field_name && p.2 == MVal.str r.pattern)

/-- tg_security_check_field_regex: substring fallback of the regex matcher;
the pattern occurs within the string value of the rule's field. -/
def tg_security_check_field_regex (r : SecurityRule) (m : EventMap) : Bool :=
  m.any (fun p =>
    p.1 == MVal.str r.field_name &&
      match p.2 with
      | MVal.str v => containsSub v r.pattern
      | _ => false)

/-- tg_security_check_field_exists: the field is present with a string key,
regardless of value. -/
def tg_security_check_field_exists (r : SecurityRule) (m : EventMap) : Bool :=
  m.any (fun p => p.1 == MVal.str r.field_name)

/-- tg_security_check_threat_intel: one of the five fixed indicator fields
has a string value that the threat-intel lookup marks malicious. -/
def tg_security_check_threat_intel (r : SecurityRule) (m : EventMap) : Bool :=
  ["src_ip", "dst_ip", "domain", "url", "file_hash"].any (fun f =>
    m.any (fun p =>
      p.1 == MVal.str f &&
        match p.2 with
        | MVal.str v => tg_threat_intel_lookup v
        | _ => false))

/-- tg_security_check_behavioral.  The C code compares the key with
`strncmp(key, "event_type", key.size)`, so (for NUL-free keys) any key that
is a prefix of "event_type" passes the key test; the string value must
contain one of the escalation keywords. -/
def tg_security_check_behavioral (r : SecurityRule) (m : EventMap) : Bool :=
  m.any (fun p =>
    match p with
    | (MVal.str k, MVal.str v) =>
        k.toList.isPrefixOf "event_type".toList &&
          (containsSub v "privilege" || containsSub v "escalation" ||
            containsSub v "sudo")
    | _ => false)

/-- tg_security_check_compliance: under the PCI-DSS (resp. HIPAA) bit of
the rule's compliance mask, any string-keyed string value containing a
category keyword matches. -/
def tg_security_check_compliance (r : SecurityRule) (m : EventMap) : Bool :=
  m.any (fun p =>
    match p with
    | (MVal.str _, MVal.str v) =>
        (r.compliance_type.land TG_COMPLIANCE_PCI_DSS != 0 &&
          (containsSub v "payment" || containsSub v "card" ||
            containsSub v "transaction")) ||
        (r.compliance_type.land TG_COMPLIANCE_HIPAA != 0 &&
          (containsSub v "patient" || containsSub v "medical" ||
            containsSub v "phi"))
    | _ => false)

/-- tg_security_rule_matches: dispatch on the rule type code; unknown types
never match. -/
def tg_security_rule_matches (r : SecurityRule) (m : EventMap) : Bool :=
  if r.type = TG_RULE_TYPE_FIELD_MATCH then tg_security_check_field_match r m
  else if r.type = TG_RULE_TYPE_FIELD_REGEX then tg_security_check_field_regex r m
  else if r.type = TG_RULE_TYPE_FIELD_EXISTS then tg_security_check_field_exists r m
  else if r.type = TG_RULE_TYPE_THREAT_INTEL then tg_security_check_threat_intel r m
  else if r.type = TG_RULE_TYPE_BEHAVIORAL then tg_security_check_behavioral r m
  else if r.type = TG_RULE_TYPE_COMPLIANCE then tg_security_check_compliance r m
  else false

/-- The rule-selection loop of tg_security_apply_filter: walk the rules in
load order carrying (highest_priority, highest_priority_action); an enabled
matching rule replaces the pair only when its priority is strictly
greater. -/
def tg_security_filter_fold (m : EventMap) :
    List SecurityRule → Int × Int → Int × Int
  | [], st => st
  | r :: rest, st =>
      tg_security_filter_fold m rest
        (if r.enabled ∧ tg_security_rule_matches r m ∧ st.1 < r.priority
         then (r.priority, r.action) else st)

/-- tg_security_apply_filter (filter_threatguard_security.c): non-map
records pass; for maps the loop starts from priority −1 and action pass. -/
def tg_security_apply_filter (v : Record) (rules : List SecurityRule) : Int :=
  match v with
  | Record.map m =>
      (tg_security_filter_fold m rules (-1, TG_SECURITY_ACTION_PASS)).2
  | Record.scalar _ => TG_SECURITY_ACTION_PASS

/-! ### Enrichment (tg_security_enrich_event) -/

/-- TG_AGENT_NAME from threatguard.h. -/
def TG_AGENT_NAME : String := "threatguard-agent"

/-- The four key/value pairs appended by tg_security_enrich_event, with the
exact bytes the C code packs.  Three of the four keys, and the value of the
tag field, are packed with a length one larger than the text, so they carry
the literal's terminating NUL byte. -/
def tg_enrich_fields (t : Int) : EventMap :=
  [ (MVal.str "tg_security_tag", MVal.str "flagged\x00"),
    (MVal.str "tg_detection_time\x00", MVal.int t),
    (MVal.str "tg_threat_score\x00", MVal.int 75),
    (MVal.str "tg_agent_id\x00", MVal.str TG_AGENT_NAME) ]

/-- tg_security_enrich_event: a map is repacked with its original pairs
followed by the four enrichment pairs (`t` is the `time(NULL)` wall clock);
a non-map object is packed unchanged. -/
def tg_security_enrich_event (v : Record) (t : Int) : Record :=
  match v with
  | Record.map m => Record.map (m ++ tg_enrich_fields t)
  | Record.scalar s => Record.scalar s

/-- The per-record body of the tg_security_filter loop: dispatch on the
resolved action; pass and unknown actions emit the record unchanged, flag
and enrich emit the enriched record, drop emits nothing. -/
def tg_security_process_record (v : Record) (rules : List SecurityRule)
    (t : Int) : List Record :=
  let action := tg_security_apply_filter v rules
  if action = TG_SECURITY_ACTION_PASS then [v]
  else if action = TG_SECURITY_ACTION_FLAG then [tg_security_enrich_event v t]
  else if action = TG_SECURITY_ACTION_DROP then []
  else if action = TG_SECURITY_ACTION_ENRICH then [tg_security_enrich_event v t]
  else [v]

/-- All values stored under a given key in an event map, in order. -/
def fieldValues (m : EventMap) (k : MVal) : List MVal :=
  (m.filter (fun p => p.1 == k)).map Prod.snd

/-! ### Priority-resolution specification for the filter -/

/-- The enabled rules that match the event, in load order. -/
def matchedRules (m : EventMap) (rules : List SecurityRule) :
    List SecurityRule :=
  rules.filter (fun r => r.enabled && tg_security_rule_matches r m)

/-- The rule the loop semantics selects from a list of matched rules: the
first rule of maximal priority (a later rule wins only when strictly
higher). -/
def chooseRule : List SecurityRule → Option SecurityRule
  | [] => none
  | r :: rest =>
      match chooseRule rest with
      | none => some r
      | some s => if r.priority < s.priority then some s else some r

theorem chooseRule_mem {rules : List SecurityRule} {r : SecurityRule}
    (h : chooseRule rules = some r) : r ∈ rules := by
  induction rules with
  | nil => simp [chooseRule] at h
  | cons x rest ih =>
      rw [chooseRule] at h
      cases hr : chooseRule rest with
      | none => rw [hr] at h; simp_all
      | some s =>
          rw [hr] at h
          by_cases hp : x.priority < s.priority
          · simp [hp] at h; subst h; exact List.mem_cons_of_mem _ (ih hr)
          · simp [hp] at h; subst h; exact List.mem_cons_self _ _

/-- The fold over a rule list equals selection by `chooseRule` on the
matched sublist, relative to the threshold carried in. -/
theorem filter_fold_eq_chooseRule (m : EventMap) (rules : List SecurityRule)
    (st : Int × Int) :
    tg_security_filter_fold m rules st =
      match chooseRule (matchedRules m rules) with
      | none => st
      | some r => if st.1 < r.priority then (r.priority, r.action) else st := by
  induction rules generalizing st with
  | nil => simp [tg_security_filter_fold, matchedRules, chooseRule]
  | cons x rest ih =>
      rw [tg_security_filter_fold]
      by_cases hx : (x.enabled && tg_security_rule_matches x m) = true
      · have hm : matchedRules m (x :: rest) = x :: matchedRules m rest := by
          simp [matchedRules, hx]
        rw [Bool.and_eq_true] at hx
        rw [hm, ih]
        cases hc : chooseRule (matchedRules m rest) with
        | none =>
            rw [chooseRule, hc]
            by_cases hp : st.1 < x.priority
            · rw [if_pos ⟨hx.1, hx.2, hp⟩]
              simp [hp]
            · rw [if_neg (by tauto)]
              simp [hp]
        | some s =>
            rw [chooseRule, hc]
            by_cases hp : st.1 < x.priority
            · rw [if_pos ⟨hx.1, hx.2, hp⟩]
              by_cases hxs : x.priority < s.priority
              · have hps : st.1 < s.priority := lt_trans hp hxs
                simp [hxs, hps]
              · simp [hxs, hp]
            · rw [if_neg (by tauto)]
              by_cases hxs : x.priority < s.priority
              · simp [hxs]
              · have hps : ¬ st.1 < s.priority := fun h =>
                  hp (lt_of_lt_of_le h (not_lt.mp hxs))
                simp [hxs, hp, hps]
      · have hm : matchedRules m (x :: rest) = matchedRules m rest := by
          simp [matchedRules, hx]
        rw [if_neg (by
          rw [Bool.and_eq_true] at hx
          tauto)]
        rw [ih, hm]

/-- `chooseRule` picks the designated element of any decomposition into a
strictly-lower-priority prefix, a maximal element, and a no-higher
suffix. -/
theorem chooseRule_first_max (l₁ : List SecurityRule) (r : SecurityRule)
    (l₂ : List SecurityRule)
    (h₁ : ∀ s ∈ l₁, s.priority < r.priority)
    (h₂ : ∀ s ∈ l₂, s.priority ≤ r.priority) :
    chooseRule (l₁ ++ r :: l₂) = some r := by
  induction l₁ with
  | nil =>
      simp only [List.nil_append, chooseRule]
      cases hc : chooseRule l₂ with
      | none => rfl
      | some s =>
          have hs : s.priority ≤ r.priority := h₂ s (chooseRule_mem hc)
          simp [not_lt.mpr hs]
  | cons x rest ih =>
      have hx : x.priority < r.priority := h₁ x (List.mem_cons_self _ _)
      have hrest : ∀ s ∈ rest, s.priority < r.priority := fun s hs =>
        h₁ s (List.mem_cons_of_mem _ hs)
      rw [List.cons_append, chooseRule, ih hrest]
      simp [hx]

/-- The pairs of a map record (empty for non-map records). -/
def recordFields : Record → EventMap
  | Record.map l => l
  | Record.scalar _ => []

/-! ### Claim C1: priority resolution -/

/-- C1 (amended).  For every map event and every rule set whose priorities
lie in the documented range (≥ 0): when no enabled rule matches, the chosen
action is pass; otherwise the chosen action is the action of the first rule
in load order among the enabled matching rules of maximal priority.  (The
original claim's tie-break by lowest rule-id does not hold; the loop keeps
the earliest-loaded rule on priority ties.) -/
theorem C1_priority_resolution (m : EventMap) (rules : List SecurityRule)
    (hpr : ∀ r ∈ rules, 0 ≤ r.priority) :
    (matchedRules m rules = [] →
      tg_security_apply_filter (Record.map m) rules = TG_SECURITY_ACTION_PASS) ∧
    (∀ l₁ r l₂, matchedRules m rules = l₁ ++ r :: l₂ →
      (∀ s ∈ l₁, s.priority < r.priority) →
      (∀ s ∈ l₂, s.priority ≤ r.priority) →
      tg_security_apply_filter (Record.map m) rules = r.action) := by
  constructor
  · intro h
    rw [tg_security_apply_filter, filter_fold_eq_chooseRule, h]
    simp [chooseRule]
  · intro l₁ r l₂ hdec h₁ h₂
    have hr_mem : r ∈ matchedRules m rules := by
      rw [hdec]; exact List.mem_append_right _ (List.mem_cons_self _ _)
    have hr' : r ∈ rules := List.mem_of_mem_filter hr_mem
    have hp0 : 0 ≤ r.priority := hpr r hr'
    rw [tg_security_apply_filter, filter_fold_eq_chooseRule, hdec,
      chooseRule_first_max l₁ r l₂ h₁ h₂]
    have hlt : (-1 : Int) < r.priority := by omega
    simp [hlt, TG_SECURITY_ACTION_PASS]

/-- Concrete event for the C1 tie-break scenario. -/
def eventW : EventMap := [(MVal.str "message", MVal.str "x")]

/-- Tie-break scenario, first-loaded rule: id 2, priority 50, drop. -/
def ruleWA : SecurityRule :=
  { id := 2, name := "A", type := 3, priority := 50, action := 2,
    enabled := true, field_name := "message", pattern := "",
    compliance_type := 0 }

/-- Tie-break scenario, second-loaded rule: id 1, priority 50, flag. -/
def ruleWB : SecurityRule :=
  { id := 1, name := "B", type := 3, priority := 50, action := 1,
    enabled := true, field_name := "message", pattern := "",
    compliance_type := 0 }

/-- C1 counterexample to the claim as stated: two enabled rules match with
equal priority; the rule with the lowest id (id 1) has action flag, yet the
filter returns drop, the action of the earliest-loaded rule (id 2). -/
theorem C1_counterexample :
    tg_security_apply_filter (Record.map eventW) [ruleWA, ruleWB] =
      TG_SECURITY_ACTION_DROP ∧
    ruleWB.id < ruleWA.id ∧ ruleWB.priority = ruleWA.priority ∧
    ruleWB.enabled = true ∧
    tg_security_rule_matches ruleWB eventW = true ∧
    ruleWB.action = TG_SECURITY_ACTION_FLAG ∧
    TG_SECURITY_ACTION_DROP ≠ TG_SECURITY_ACTION_FLAG := by
  decide

/-- Witness for C1: the amended theorem applied to the tie-break scenario
selects the first-loaded rule's action. -/
theorem C1_priority_resolution_witness :
    tg_security_apply_filter (Record.map eventW) [ruleWA, ruleWB] = 2 := by
  have h := C1_priority_resolution eventW [ruleWA, ruleWB] (by decide)
  exact h.2 [] ruleWA [ruleWB] (by decide) (by decide) (by decide)

/-! ### Claim C3: enrichment fields -/

/-- The four enrichment fields as the specification's words state them
(claim C3), for comparison with `tg_enrich_fields`: value "flagged" with no
NUL byte, keys without NUL bytes, and a threat score derived from the
matched rule's priority (the priority itself, already on the 0-100
scale). -/
def specEnrichFields (priority t : Int) : EventMap :=
  [ (MVal.str "tg_security_tag", MVal.str "flagged"),
    (MVal.str "tg_detection_time", MVal.int t),
    (MVal.str "tg_threat_score", MVal.int priority),
    (MVal.str "tg_agent_id", MVal.str TG_AGENT_NAME) ]

/-- C3 (amended).  When the resolved action is flag or enrich, the emitted
event is the input map extended with exactly four pairs: key
"tg_security_tag" whose 8-byte value is "flagged" plus a trailing NUL; keys
"tg_detection_time", "tg_threat_score" and "tg_agent_id" each packed with
a trailing NUL byte; the detection time is the wall clock, the threat score
is the constant 75 (independent of the matched rule's priority), and the
agent id is the agent name. -/
theorem C3_enrichment (m : EventMap) (rules : List SecurityRule) (t : Int)
    (h : tg_security_apply_filter (Record.map m) rules =
          TG_SECURITY_ACTION_FLAG ∨
         tg_security_apply_filter (Record.map m) rules =
          TG_SECURITY_ACTION_ENRICH) :
    tg_security_process_record (Record.map m) rules t =
      [Record.map (m ++
        [ (MVal.str "tg_security_tag", MVal.str "flagged\x00"),
          (MVal.str "tg_detection_time\x00", MVal.int t),
          (MVal.str "tg_threat_score\x00", MVal.int 75),
          (MVal.str "tg_agent_id\x00", MVal.str "threatguard-agent") ])] := by
  rcases h with h | h <;>
    simp [tg_security_process_record, h, TG_SECURITY_ACTION_PASS,
      TG_SECURITY_ACTION_FLAG, TG_SECURITY_ACTION_DROP,
      TG_SECURITY_ACTION_ENRICH, tg_security_enrich_event,
      tg_enrich_fields, TG_AGENT_NAME]

/-- Concrete flag-rule and event for the C3 scenario: a regex (substring)
rule of priority 90 on the message field. -/
def ruleC3 : SecurityRule :=
  { id := 1, name := "Failed Login", type := 2, priority := 90, action := 1,
    enabled := true, field_name := "message", pattern := "fail",
    compliance_type := 0 }

/-- Concrete event matched by `ruleC3`. -/
def eventC3 : EventMap := [(MVal.str "message", MVal.str "login failed")]

/-- C3 counterexample to the claim as stated: at a concrete flagged event,
the actual enrichment fields differ from the specified ones: there is no
field keyed exactly "tg_threat_score" at all (the packed key carries a
trailing NUL byte), and the tg_security_tag value is "flagged" with a
trailing NUL byte rather than "flagged"; the score is 75, not the matched
rule's priority 90. -/
theorem C3_counterexample :
    tg_security_process_record (Record.map eventC3) [ruleC3] 5 =
      [Record.map (eventC3 ++ tg_enrich_fields 5)] ∧
    fieldValues (tg_enrich_fields 5) (MVal.str "tg_threat_score") = [] ∧
    fieldValues (tg_enrich_fields 5) (MVal.str "tg_security_tag") =
      [MVal.str "flagged\x00"] ∧
    MVal.str "flagged\x00" ≠ MVal.str "flagged" ∧
    tg_enrich_fields 5 ≠ specEnrichFields ruleC3.priority 5 := by
  decide

/-- Witness for C3: the amended theorem applied to the concrete flagged
event. -/
theorem C3_enrichment_witness :
    tg_security_process_record (Record.map eventC3) [ruleC3] 1000 =
      [Record.map (eventC3 ++
        [ (MVal.str "tg_security_tag", MVal.str "flagged\x00"),
          (MVal.str "tg_detection_time\x00", MVal.int 1000),
          (MVal.str "tg_threat_score\x00", MVal.int 75),
          (MVal.str "tg_agent_id\x00", MVal.str "threatguard-agent") ])] :=
  C3_enrichment eventC3 [ruleC3] 1000 (Or.inl (by decide))

/-! ### Claim C8: enriching twice -/

/-- Appending maps splits `fieldValues`. -/
theorem fieldValues_append (a b : EventMap) (k : MVal) :
    fieldValues (a ++ b) k = fieldValues a k ++ fieldValues b k := by
  simp [fieldValues, List.filter_append]

/-- The enrichment fields hold exactly one tg_security_tag pair. -/
theorem fieldValues_enrich_tag (t : Int) :
    fieldValues (tg_enrich_fields t) (MVal.str "tg_security_tag") =
      [MVal.str "flagged\x00"] := rfl

/-- C8 (amended).  Applying the enricher to an already-enriched event is
not a no-op: it appends the four enrichment fields a second time.  For an
event with no tg_security_tag field of its own, the doubly-enriched event
carries exactly two tg_security_tag pairs, both with the same value, the
first being the unchanged original; the claim's "single tg_security_tag
field" does not hold. -/
theorem C8_enrich_twice (m : EventMap) (t t' : Int)
    (h : fieldValues m (MVal.str "tg_security_tag") = []) :
    tg_security_enrich_event (tg_security_enrich_event (Record.map m) t) t' =
      Record.map (m ++ tg_enrich_fields t ++ tg_enrich_fields t') ∧
    fieldValues (m ++ tg_enrich_fields t ++ tg_enrich_fields t')
        (MVal.str "tg_security_tag") =
      [MVal.str "flagged\x00", MVal.str "flagged\x00"] := by
  constructor
  · simp [tg_security_enrich_event]
  · rw [fieldValues_append, fieldValues_append, h, fieldValues_enrich_tag,
      fieldValues_enrich_tag]
    rfl

/-- C8 counterexample to the claim as stated: a doubly-enriched concrete
event has two tg_security_tag fields, not a single one. -/
theorem C8_counterexample :
    (fieldValues
      (recordFields
        (tg_security_enrich_event
          (tg_security_enrich_event
            (Record.map [(MVal.str "k", MVal.str "v")]) 1) 2))
      (MVal.str "tg_security_tag")).length = 2 := by
  decide

/-- Witness for C8: the amended theorem at a concrete event without a
tg_security_tag field. -/
theorem C8_enrich_twice_witness :
    tg_security_enrich_event
        (tg_security_enrich_event
          (Record.map [(MVal.str "k", MVal.str "v")]) 1) 2 =
      Record.map ([(MVal.str "k", MVal.str "v")] ++
        tg_enrich_fields 1 ++ tg_enrich_fields 2) ∧
    fieldValues ([(MVal.str "k", MVal.str "v")] ++
        tg_enrich_fields 1 ++ tg_enrich_fields 2)
        (MVal.str "tg_security_tag") =
      [MVal.str "flagged\x00", MVal.str "flagged\x00"] :=
  C8_enrich_twice [(MVal.str "k", MVal.str "v")] 1 2 (by decide)

/-! ### Claim C10: non-map records -/

/-- C10.  A record that is not a map resolves to action pass independently
of the loaded rules (no rule matching is consulted), and the filter loop
emits it unchanged with no enrichment. -/
theorem C10_nonmap_pass (s : MVal) (rules : List SecurityRule) (t : Int) :
    tg_security_apply_filter (Record.scalar s) rules =
      TG_SECURITY_ACTION_PASS ∧
    tg_security_process_record (Record.scalar s) rules t =
      [Record.scalar s] := by
  refine ⟨rfl, ?_⟩
  simp [tg_security_process_record, tg_security_apply_filter]

/-! ### Rules file line format (tg_security_load_rules_file) -/

/-- The digit-accumulating loop of `atoi`: consume leading digits, stop at
the first non-digit. -/
def atoiLoop : List Char → Int → Int
  | [], acc => acc
  | c :: rest, acc =>
      if c.isDigit then atoiLoop rest (acc * 10 + ((c.toNat : Int) - 48))
      else acc

/-- C `atoi`: skip leading whitespace, optional sign, then a digit
prefix; anything else yields 0. -/
def atoi (s : String) : Int :=
  let cs := s.toList.dropWhile (fun c =>
    c = ' ' ∨ c = '\t' ∨ c = '\n' ∨ c = '\r' ∨ c = '\x0b' ∨ c = '\x0c')
  match cs with
  | '-' :: rest => - atoiLoop rest 0
  | '+' :: rest => atoiLoop rest 0
  | _ => atoiLoop cs 0

/-- Split a character list at every '|' (keeping empty chunks). -/
def splitBar : List Char → List Char → List String
  | [], acc => [String.mk acc.reverse]
  | c :: rest, acc =>
      if c = '|' then String.mk acc.reverse :: splitBar rest []
      else splitBar rest (c :: acc)

/-- The `strtok(line, "|")` loop: the non-empty chunks between '|'
separators, in order (leading and repeated separators are skipped). -/
def strtokTokens (line : String) : List String :=
  (splitBar line.toList []).filter (fun t => t ≠ "")

/-- `pattern[strcspn(pattern, "\n")] = 0`: truncate at the first
newline. -/
def trimNewline (s : String) : String :=
  String.mk (s.toList.takeWhile (fun c => c ≠ '\n'))

/-- Outcome of one line of the rules file.  `accepted` carries the parsed
rule fields.  `acceptedUndefined` is the `token_count == 6` case: the
`>= 6` branch is taken and a rule is added, but `tokens[6]` (the pattern)
is read from an uninitialized array slot, so the stored pattern is
indeterminate. -/
inductive RuleLineResult where
  | skipped
  | accepted (id : Int) (name : String) (type : Int) (priority : Int)
      (action : Int) (field : String) (pattern : String)
  | acceptedUndefined (id : Int) (name : String) (type : Int)
      (priority : Int) (action : Int) (field : String)
  deriving DecidableEq, Repr

/-- The per-line body of tg_security_load_rules_file: skip comments and
empty lines; tokenize on '|' taking at most 7 tokens; the branch condition
is `token_count >= 6`. -/
def tg_parse_rule_line (line : String) : RuleLineResult :=
  if line = "" then RuleLineResult.skipped
  else if line.front = '#' ∨ line.front = '\n' then RuleLineResult.skipped
  else
    match (strtokTokens line).take 7 with
    | t0 :: t1 :: t2 :: t3 :: t4 :: t5 :: t6 :: _ =>
        RuleLineResult.accepted (atoi t0) t1 (atoi t2) (atoi t3) (atoi t4)
          t5 (trimNewline t6)
    | [t0, t1, t2, t3, t4, t5] =>
        RuleLineResult.acceptedUndefined (atoi t0) t1 (atoi t2) (atoi t3)
          (atoi t4) t5
    | _ => RuleLineResult.skipped

/-! ### Claim C4: rules file parsing -/

/-- C4: the code at the failing input.  A line with exactly six
'|'-separated fields is not skipped: the `token_count >= 6` branch accepts
it and adds a rule whose pattern is read from the uninitialized
`tokens[6]`.  A well-formed seven-field line parses as documented (with
the newline trimmed from the pattern), and a five-field line is
skipped. -/
theorem C4_six_field_line_accepted :
    tg_parse_rule_line "1|rule|1|50|1|message\n" =
      RuleLineResult.acceptedUndefined 1 "rule" 1 50 1 "message\n" ∧
    tg_parse_rule_line "1|rule|1|50|1|message\n" ≠ RuleLineResult.skipped ∧
    tg_parse_rule_line "2|name|2|60|2|field|pat\n" =
      RuleLineResult.accepted 2 "name" 2 60 2 "field" "pat" ∧
    tg_parse_rule_line "3|name|2|60|2\n" = RuleLineResult.skipped ∧
    tg_parse_rule_line "# comment line\n" = RuleLineResult.skipped := by
  decide

/-! ### Batched egress model (out_threatguard_platform.c) -/

/-- The msgpack batch buffer: the array header packed when the batch is
initialized (its declared element count) followed by the packed events. -/
structure BatchBuffer where
  declared : Int
  elems : List Record
  deriving DecidableEq, Repr

/-- Outcome of one transmission attempt, as the environment presents it:
no upstream connection, or an HTTP response status. -/
inductive Response where
  | connFail
  | http (status : Int)
  deriving DecidableEq, Repr

/-- struct tg_platform_ctx (out_threatguard_platform.c), restricted to the
fields the batching and failure-accounting logic reads or writes
(`bytes_sent`, the upstream handle and the header strings are omitted). -/
structure PlatformState where
  batch_size : Int
  retry_limit : Int
  batch_max_wait_time : Int
  batch : BatchBuffer
  batch_count : Int
  batch_start_time : Int
  events_sent : Int
  events_failed : Int
  batches_sent : Int
  connection_errors : Int
  http_errors : Int
  consecutive_failures : Int
  deriving DecidableEq, Repr

/-- tg_platform_add_to_batch: an empty batch is (re)initialized by packing
an array header of `batch_size` elements and recording the start time;
then the event is appended and the count incremented. -/
def tg_platform_add_to_batch (st : PlatformState) (ev : Record)
    (now : Int) : PlatformState :=
  let st :=
    if st.batch_count = 0 then
      { st with batch := { declared := st.batch_size, elems := [] },
                batch_start_time := now }
    else st
  { st with batch := { st.batch with elems := st.batch.elems ++ [ev] },
            batch_count := st.batch_count + 1 }

/-- tg_platform_should_flush_batch: a non-empty batch flushes when it
reaches batch_size events or has waited batch_max_wait_time seconds. -/
def tg_platform_should_flush_batch (st : PlatformState) (now : Int) : Bool :=
  if st.batch_count = 0 then false
  else if st.batch_count ≥ st.batch_size then true
  else if now - st.batch_start_time ≥ st.batch_max_wait_time then true
  else false

/-- tg_platform_flush_batch: one transmission attempt of the current
batch.  Connection failure or a status other than 200/202 bumps the
matching error counter and consecutive_failures and returns -1; 200/202
returns 0.  (Compression never fails in the placeholder and does not
change the accounting.) -/
def tg_platform_flush_batch (st : PlatformState) (resp : Response) :
    PlatformState × Int :=
  if st.batch_count = 0 then (st, -1)
  else
    match resp with
    | Response.connFail =>
        ({ st with connection_errors := st.connection_errors + 1,
                   consecutive_failures := st.consecutive_failures + 1 }, -1)
    | Response.http s =>
        if s = 200 ∨ s = 202 then (st, 0)
        else
          ({ st with http_errors := st.http_errors + 1,
                     consecutive_failures := st.consecutive_failures + 1 }, -1)

/-- tg_platform_reset_batch: clear the buffer and the counters. -/
def tg_platform_reset_batch (st : PlatformState) : PlatformState :=
  { st with batch := { declared := 0, elems := [] },
            batch_count := 0, batch_start_time := 0 }

/-- The event loop of tg_platform_flush: append each incoming event; when
the batch is ready, transmit it once, consuming the next response from the
environment; on failure add the batch's events to events_failed, on
success add them to events_sent, bump batches_sent and clear
consecutive_failures; in both cases reset (drop) the batch and continue.
Returns the final state and the unconsumed responses. -/
def tg_platform_flush (st : PlatformState) (events : List Record)
    (resps : List Response) (now : Int) : PlatformState × List Response :=
  match events with
  | [] => (st, resps)
  | ev :: rest =>
      let st1 := tg_platform_add_to_batch st ev now
      if tg_platform_should_flush_batch st1 now then
        let resp := resps.headD Response.connFail
        let rs := resps.tail
        let fb := tg_platform_flush_batch st1 resp
        let st2 :=
          if fb.2 ≠ 0 then
            { fb.1 with events_failed := fb.1.events_failed + fb.1.batch_count }
          else
            { fb.1 with events_sent := fb.1.events_sent + fb.1.batch_count,
                        batches_sent := fb.1.batches_sent + 1,
                        consecutive_failures := 0 }
        tg_platform_flush (tg_platform_reset_batch st2) rest rs now
      else tg_platform_flush st1 rest resps now

/-- Health classification (tg_platform_get_health_status). -/
def tg_platform_health (st : PlatformState) : String :=
  if st.consecutive_failures = 0 then "healthy"
  else if st.consecutive_failures < 3 then "degraded"
  else "unhealthy"

/-- A fresh egress state as tg_platform_init leaves it, with the given
batch_size and retry_limit. -/
def initPlatformState (batchSize retryLimit : Int) : PlatformState :=
  { batch_size := batchSize, retry_limit := retryLimit,
    batch_max_wait_time := 30,
    batch := { declared := 0, elems := [] },
    batch_count := 0, batch_start_time := 0,
    events_sent := 0, events_failed := 0, batches_sent := 0,
    connection_errors := 0, http_errors := 0, consecutive_failures := 0 }

/-- A fixed event for the egress scenarios. -/
def evE : Record := Record.map [(MVal.str "message", MVal.str "hello")]

/-! ### Claim C2: transport retry -/

/-- C2: the code at the failing input.  With retry_limit = 3, one event
forming one batch, and the response sequence [500, 500, 202], the batch is
transmitted exactly once: the first 500 drops it, its event is counted
failed, consecutive_failures is 1 (not 0), nothing is ever sent, and the
remaining two responses are never consumed — no retry happens.  The
result is identical with retry_limit = 0: the retry limit is never
consulted. -/
theorem C2_no_retry_on_failure :
    (tg_platform_flush (initPlatformState 1 3) [evE]
        [Response.http 500, Response.http 500, Response.http 202] 100).1.events_sent = 0 ∧
    (tg_platform_flush (initPlatformState 1 3) [evE]
        [Response.http 500, Response.http 500, Response.http 202] 100).1.events_failed = 1 ∧
    (tg_platform_flush (initPlatformState 1 3) [evE]
        [Response.http 500, Response.http 500, Response.http 202] 100).1.consecutive_failures = 1 ∧
    (tg_platform_flush (initPlatformState 1 3) [evE]
        [Response.http 500, Response.http 500, Response.http 202] 100).1.http_errors = 1 ∧
    (tg_platform_flush (initPlatformState 1 3) [evE]
        [Response.http 500, Response.http 500, Response.http 202] 100).2 =
      [Response.http 500, Response.http 202] ∧
    (tg_platform_flush (initPlatformState 1 0) [evE]
        [Response.http 500, Response.http 500, Response.http 202] 100).1.events_failed = 1 := by
  decide

/-! ### Claim C7: batch body element count and order -/

/-- C7: the code at the failing input.  With batch_size = 3, after two
events are appended the buffer's declared element count is 3 (the
configured batch_size packed at initialization), while only 2 events are
in the body — and the max-wait timeout makes exactly this partial buffer
flushable.  The appended events do appear in order. -/
theorem C7_declared_count_mismatch :
    (tg_platform_add_to_batch
        (tg_platform_add_to_batch (initPlatformState 3 3) evE 100)
        (Record.scalar (MVal.int 7)) 100).batch.declared = 3 ∧
    (tg_platform_add_to_batch
        (tg_platform_add_to_batch (initPlatformState 3 3) evE 100)
        (Record.scalar (MVal.int 7)) 100).batch.elems =
      [evE, Record.scalar (MVal.int 7)] ∧
    ((tg_platform_add_to_batch
        (tg_platform_add_to_batch (initPlatformState 3 3) evE 100)
        (Record.scalar (MVal.int 7)) 100).batch.elems.length : Int) ≠ 3 ∧
    tg_platform_should_flush_batch
      (tg_platform_add_to_batch
        (tg_platform_add_to_batch (initPlatformState 3 3) evE 100)
        (Record.scalar (MVal.int 7)) 100) 130 = true := by
  decide

/-! ### Discovery model (in_threatguard_discovery.c, discovery_engine.c) -/

/-- struct tg_system_info, restricted to the fields the collect cycle and
configuration generation read. -/
structure TgSystemInfo where
  hostname : String
  os_version : String
  platform_type : Int
  cpu_cores : Int
  total_memory : Int
  deriving DecidableEq, Repr

/-- struct tg_organization (domain field omitted, unread here). -/
structure TgOrganization where
  id : String
  name : String
  detection_method : String
  detection_confidence : Int
  compliance_requirements : Int
  deriving DecidableEq, Repr

/-- struct tg_security_tool, restricted to the emitted fields. -/
structure SecurityToolInfo where
  name : String
  vendor : String
  type : Int
  active : Bool
  deriving DecidableEq, Repr

/-- struct tg_discovery_result. -/
structure TgDiscoveryResult where
  system : TgSystemInfo
  organization : TgOrganization
  security_tools : List SecurityToolInfo
  security_tool_count : Int
  discovery_time : Int
  overall_confidence : Int
  deriving DecidableEq, Repr

/-- Outcome of a platform probe call: a value, or a negative return
code. -/
inductive ProbeOutcome (α : Type) where
  | ok (val : α)
  | err
  deriving DecidableEq, Repr

/-- The defaults tg_discovery_collect installs when organization detection
fails (the structure was zeroed and the failing callee already wrote
method "none"). -/
def defaultUnknownOrg : TgOrganization :=
  { id := "unknown", name := "Unknown Organization",
    detection_method := "none", detection_confidence := 0,
    compliance_requirements := 0 }

/-- tg_discovery_collect (in_threatguard_discovery.c), as a function of
the probe outcomes: a failing system scan returns -1 (no record emitted);
a failing security-tool scan (negative return) also returns -1; a failing
organization detection degrades to the Unknown defaults; otherwise the
DiscoveryResult is composed with
overall_confidence = (org_confidence + (tool_count > 0 ? 80 : 50)) / 2 and
the discovery record is emitted.  `none` models the aborted cycle. -/
def tg_discovery_collect (t : Int) (sys : ProbeOutcome TgSystemInfo)
    (tools : ProbeOutcome (List SecurityToolInfo))
    (org : ProbeOutcome TgOrganization) : Option TgDiscoveryResult :=
  match sys with
  | ProbeOutcome.err => none
  | ProbeOutcome.ok s =>
      match tools with
      | ProbeOutcome.err => none
      | ProbeOutcome.ok ts =>
          let o :=
            match org with
            | ProbeOutcome.ok o => o
            | ProbeOutcome.err => defaultUnknownOrg
          some { system := s, organization := o, security_tools := ts,
                 security_tool_count := (ts.length : Int),
                 discovery_time := t,
                 overall_confidence :=
                   (o.detection_confidence +
                     (if (ts.length : Int) > 0 then 80 else 50)) / 2 }

/-! ### Claim C6: discovery failure semantics -/

/-- C6 (amended).  A security-tool scan failure (negative return) aborts
the discovery cycle exactly like a system-scan failure: no DiscoveryResult
is published (the original claim's empty-list degradation does not
happen).  A successful scan that finds no tools does publish a result with
an empty tool list, and an organization-detection failure degrades to the
Unknown defaults without aborting. -/
theorem C6_failure_semantics (t : Int) (s : TgSystemInfo)
    (ts : List SecurityToolInfo) (org : ProbeOutcome TgOrganization) :
    tg_discovery_collect t (ProbeOutcome.ok s) ProbeOutcome.err org =
      none ∧
    tg_discovery_collect t ProbeOutcome.err (ProbeOutcome.ok ts) org =
      none ∧
    (∀ r, tg_discovery_collect t (ProbeOutcome.ok s) (ProbeOutcome.ok ts)
        org = some r →
      r.security_tools = ts ∧ r.system = s) ∧
    (∀ r, tg_discovery_collect t (ProbeOutcome.ok s) (ProbeOutcome.ok ts)
        ProbeOutcome.err = some r →
      r.organization = defaultUnknownOrg) := by
  refine ⟨rfl, rfl, ?_, ?_⟩
  · intro r hr
    cases org <;> simp [tg_discovery_collect] at hr <;> subst hr <;>
      exact ⟨rfl, rfl⟩
  · intro r hr
    simp [tg_discovery_collect] at hr
    subst hr
    rfl

/-- Concrete system and organization values for the C6 scenario. -/
def sysC6 : TgSystemInfo :=
  { hostname := "host-a", os_version := "Linux 6.1", platform_type := 3,
    cpu_cores := 4, total_memory := 4096 }

/-- A concrete detected organization for the C6 scenario. -/
def orgC6 : TgOrganization :=
  { id := "domain_corp", name := "corp Organization",
    detection_method := "domain", detection_confidence := 85,
    compliance_requirements := 0 }

/-- C6 counterexample to the claim as stated: when the security-tool scan
fails, the cycle publishes nothing at all — not a DiscoveryResult with an
empty tool list. -/
theorem C6_counterexample :
    tg_discovery_collect 5 (ProbeOutcome.ok sysC6) ProbeOutcome.err
      (ProbeOutcome.ok orgC6) = none := by
  decide

/-- Witness for C6: the amended theorem at concrete probe outcomes; the
tool-scan failure aborts, while the empty successful scan publishes the
concrete system with an empty tool list. -/
theorem C6_failure_semantics_witness :
    tg_discovery_collect 5 (ProbeOutcome.ok sysC6) ProbeOutcome.err
        (ProbeOutcome.ok orgC6) = none ∧
    ({ system := sysC6, organization := orgC6, security_tools := [],
       security_tool_count := 0, discovery_time := 5,
       overall_confidence := 67 } : TgDiscoveryResult).security_tools =
      ([] : List SecurityToolInfo) ∧
    ({ system := sysC6, organization := orgC6, security_tools := [],
       security_tool_count := 0, discovery_time := 5,
       overall_confidence := 67 } : TgDiscoveryResult).system = sysC6 := by
  have h := C6_failure_semantics 5 sysC6 [] (ProbeOutcome.ok orgC6)
  refine ⟨h.1, ?_⟩
  have h3 := h.2.2.1
    { system := sysC6, organization := orgC6, security_tools := [],
      security_tool_count := 0, discovery_time := 5,
      overall_confidence := 67 } (by decide)
  exact h3

/-! ### Claim C9: adaptive configuration from tool count -/

/-- struct tg_agent_config (threatguard.h), restricted to the fields
tg_discovery_generate_config reads or writes (the generated Fluent Bit
configuration string and timestamps are omitted). -/
structure TgAgentConfig where
  collection_interval : Int
  batch_size : Int
  max_memory_mb : Int
  max_cpu_percent : Int
  enable_encryption : Bool
  retention_days : Int
  deriving DecidableEq, Repr

/-- Memory-based adjustment of tg_discovery_generate_config. -/
def tgGenMemAdjust (cfg : TgAgentConfig) (r : TgDiscoveryResult) :
    TgAgentConfig :=
  if r.system.total_memory < 2048 then
    { cfg with max_memory_mb := 32, batch_size := 50 }
  else if r.system.total_memory > 8192 then
    { cfg with max_memory_mb := 128, batch_size := 500 }
  else cfg

/-- Cpu-cores-based adjustment of tg_discovery_generate_config. -/
def tgGenCpuAdjust (cfg : TgAgentConfig) (r : TgDiscoveryResult) :
    TgAgentConfig :=
  if r.system.cpu_cores > 8 then { cfg with max_cpu_percent := 10 }
  else if r.system.cpu_cores < 4 then { cfg with max_cpu_percent := 2 }
  else cfg

/-- Security-tool-count adjustment of tg_discovery_generate_config: with
more than 3 tools, reduce max_cpu_percent by 1 with floor 1 and set the
collection interval to 120 s. -/
def tgGenToolAdjust (cfg : TgAgentConfig) (r : TgDiscoveryResult) :
    TgAgentConfig :=
  if r.security_tool_count > 3 then
    { cfg with max_cpu_percent := max 1 (cfg.max_cpu_percent - 1),
               collection_interval := 120 }
  else cfg

/-- PCI-DSS compliance adjustment of tg_discovery_generate_config. -/
def tgGenPciAdjust (cfg : TgAgentConfig) (r : TgDiscoveryResult) :
    TgAgentConfig :=
  if r.organization.compliance_requirements.land TG_COMPLIANCE_PCI_DSS ≠ 0 then
    { cfg with enable_encryption := true, retention_days := 365,
               collection_interval := 30 }
  else cfg

/-- HIPAA compliance adjustment of tg_discovery_generate_config. -/
def tgGenHipaaAdjust (cfg : TgAgentConfig) (r : TgDiscoveryResult) :
    TgAgentConfig :=
  if r.organization.compliance_requirements.land TG_COMPLIANCE_HIPAA ≠ 0 then
    { cfg with enable_encryption := true, retention_days := 2190 }
  else cfg

/-- SOX compliance adjustment of tg_discovery_generate_config. -/
def tgGenSoxAdjust (cfg : TgAgentConfig) (r : TgDiscoveryResult) :
    TgAgentConfig :=
  if r.organization.compliance_requirements.land TG_COMPLIANCE_SOX ≠ 0 then
    { cfg with retention_days := 2555, enable_encryption := true }
  else cfg

/-- tg_discovery_generate_config (discovery_engine.c): the sequential
adjustments from memory, cpu cores, security-tool count and compliance
bits.  The trailing Fluent Bit text generation does not touch these
fields. -/
def tg_discovery_generate_config (cfg : TgAgentConfig)
    (r : TgDiscoveryResult) : TgAgentConfig :=
  tgGenSoxAdjust
    (tgGenHipaaAdjust
      (tgGenPciAdjust
        (tgGenToolAdjust (tgGenCpuAdjust (tgGenMemAdjust cfg r) r) r) r) r) r

/-- The max_cpu_percent value after the cores-based adjustment and before
the tool-count rule. -/
def cpuAfterCores (cfg : TgAgentConfig) (r : TgDiscoveryResult) : Int :=
  if r.system.cpu_cores > 8 then 10
  else if r.system.cpu_cores < 4 then 2
  else cfg.max_cpu_percent

theorem tgGenMemAdjust_interval (cfg : TgAgentConfig)
    (r : TgDiscoveryResult) :
    (tgGenMemAdjust cfg r).collection_interval = cfg.collection_interval ∧
    (tgGenMemAdjust cfg r).max_cpu_percent = cfg.max_cpu_percent := by
  unfold tgGenMemAdjust; split_ifs <;> exact ⟨rfl, rfl⟩

theorem tgGenCpuAdjust_spec (cfg : TgAgentConfig) (r : TgDiscoveryResult) :
    (tgGenCpuAdjust cfg r).collection_interval = cfg.collection_interval ∧
    (tgGenCpuAdjust cfg r).max_cpu_percent = cpuAfterCores cfg r := by
  unfold tgGenCpuAdjust cpuAfterCores; split_ifs <;> exact ⟨rfl, rfl⟩

theorem tgGenHipaaSox_preserve (cfg : TgAgentConfig)
    (r : TgDiscoveryResult) :
    (tgGenSoxAdjust (tgGenHipaaAdjust cfg r) r).collection_interval =
      cfg.collection_interval ∧
    (tgGenSoxAdjust (tgGenHipaaAdjust cfg r) r).max_cpu_percent =
      cfg.max_cpu_percent := by
  unfold tgGenSoxAdjust tgGenHipaaAdjust; split_ifs <;> exact ⟨rfl, rfl⟩

theorem cpuAfterCores_congr (c₁ c₂ : TgAgentConfig) (r : TgDiscoveryResult)
    (h : c₁.max_cpu_percent = c₂.max_cpu_percent) :
    cpuAfterCores c₁ r = cpuAfterCores c₂ r := by
  unfold cpuAfterCores; rw [h]

/-- C9 (amended).  The tool-count rule fires when strictly more than three
security tools were discovered (at least four), not at three: with more
than three tools (and no PCI-DSS bit, which would later override the
interval) the generated configuration has collection_interval 120 and
max_cpu_percent reduced by 1 from its cores-adjusted value with floor 1;
with three or fewer tools both settings are left as the other rules set
them. -/
theorem C9_adaptive_config (cfg : TgAgentConfig) (r : TgDiscoveryResult)
    (hpci : r.organization.compliance_requirements.land
      TG_COMPLIANCE_PCI_DSS = 0) :
    (r.security_tool_count > 3 →
      (tg_discovery_generate_config cfg r).collection_interval = 120 ∧
      (tg_discovery_generate_config cfg r).max_cpu_percent =
        max 1 (cpuAfterCores cfg r - 1)) ∧
    (r.security_tool_count ≤ 3 →
      (tg_discovery_generate_config cfg r).collection_interval =
        cfg.collection_interval ∧
      (tg_discovery_generate_config cfg r).max_cpu_percent =
        cpuAfterCores cfg r) := by
  have hpci' : tgGenPciAdjust
      (tgGenToolAdjust (tgGenCpuAdjust (tgGenMemAdjust cfg r) r) r) r =
      tgGenToolAdjust (tgGenCpuAdjust (tgGenMemAdjust cfg r) r) r := by
    unfold tgGenPciAdjust; simp [hpci]
  have hcpu := tgGenCpuAdjust_spec (tgGenMemAdjust cfg r) r
  have hmem := tgGenMemAdjust_interval cfg r
  have hcc : cpuAfterCores (tgGenMemAdjust cfg r) r = cpuAfterCores cfg r :=
    cpuAfterCores_congr _ _ r hmem.2
  constructor
  · intro h4
    have htool : tgGenToolAdjust (tgGenCpuAdjust (tgGenMemAdjust cfg r) r) r =
        { tgGenCpuAdjust (tgGenMemAdjust cfg r) r with
          max_cpu_percent :=
            max 1 ((tgGenCpuAdjust (tgGenMemAdjust cfg r) r).max_cpu_percent - 1),
          collection_interval := 120 } := by
      unfold tgGenToolAdjust; rw [if_pos h4]
    rw [tg_discovery_generate_config, hpci', htool]
    have hps := tgGenHipaaSox_preserve
      { tgGenCpuAdjust (tgGenMemAdjust cfg r) r with
        max_cpu_percent :=
          max 1 ((tgGenCpuAdjust (tgGenMemAdjust cfg r) r).max_cpu_percent - 1),
        collection_interval := 120 } r
    rw [hps.1, hps.2]
    exact ⟨rfl, by rw [hcpu.2, hcc]⟩
  · intro h3
    have hn4 : ¬ r.security_tool_count > 3 := not_lt.mpr h3
    have htool : tgGenToolAdjust (tgGenCpuAdjust (tgGenMemAdjust cfg r) r) r =
        tgGenCpuAdjust (tgGenMemAdjust cfg r) r := by
      unfold tgGenToolAdjust; rw [if_neg hn4]
    rw [tg_discovery_generate_config, hpci', htool]
    have hps := tgGenHipaaSox_preserve (tgGenCpuAdjust (tgGenMemAdjust cfg r) r) r
    rw [hps.1, hps.2]
    refine ⟨by rw [hcpu.1, hmem.1], by rw [hcpu.2, hcc]⟩

/-- Concrete configuration for the C9 scenarios. -/
def cfgC9 : TgAgentConfig :=
  { collection_interval := 60, batch_size := 100, max_memory_mb := 80,
    max_cpu_percent := 5, enable_encryption := true, retention_days := 90 }

/-- A concrete security tool entry. -/
def toolC9 : SecurityToolInfo :=
  { name := "ClamAV", vendor := "Cisco", type := 1, active := true }

/-- A discovery result with exactly three security tools (memory and cores
in the neutral bands, no compliance bits). -/
def resC9three : TgDiscoveryResult :=
  { system := sysC6, organization := defaultUnknownOrg,
    security_tools := [toolC9, toolC9, toolC9],
    security_tool_count := 3, discovery_time := 5,
    overall_confidence := 65 }

/-- The same discovery result with four security tools. -/
def resC9four : TgDiscoveryResult :=
  { resC9three with security_tools := [toolC9, toolC9, toolC9, toolC9],
                    security_tool_count := 4 }

/-- C9 counterexample to the claim as stated: with exactly three security
tools the rule does not fire — the collection interval stays at its prior
value 60 (not 120) and max_cpu_percent is unreduced. -/
theorem C9_counterexample :
    resC9three.security_tool_count = 3 ∧
    (tg_discovery_generate_config cfgC9 resC9three).collection_interval = 60 ∧
    (tg_discovery_generate_config cfgC9 resC9three).collection_interval ≠ 120 ∧
    (tg_discovery_generate_config cfgC9 resC9three).max_cpu_percent =
      cfgC9.max_cpu_percent := by
  decide

/-- Witness for C9: the amended theorem at four tools (interval 120, cpu
5 − 1 = 4) and at three tools (both settings unchanged). -/
theorem C9_adaptive_config_witness :
    ((tg_discovery_generate_config cfgC9 resC9four).collection_interval = 120 ∧
      (tg_discovery_generate_config cfgC9 resC9four).max_cpu_percent =
        max 1 (cpuAfterCores cfgC9 resC9four - 1)) ∧
    ((tg_discovery_generate_config cfgC9 resC9three).collection_interval =
        cfgC9.collection_interval ∧
      (tg_discovery_generate_config cfgC9 resC9three).max_cpu_percent =
        cpuAfterCores cfgC9 resC9three) := by
  refine ⟨?_, ?_⟩
  · exact (C9_adaptive_config cfgC9 resC9four (by decide)).1 (by decide)
  · exact (C9_adaptive_config cfgC9 resC9three (by decide)).2 (by decide)

/-! ### Configuration loader (src/common/config.c) -/

/-- Log level codes in the order of logger.c's level-name table:
trace, debug, info, warn, error, fatal. -/
def TG_LOG_TRACE : Int := 0
def TG_LOG_DEBUG : Int := 1
def TG_LOG_INFO : Int := 2
def TG_LOG_WARN : Int := 3
def TG_LOG_ERROR : Int := 4
def TG_LOG_FATAL : Int := 5

/-- The platform section of the agent configuration. -/
structure CPlatformConfig where
  host : String
  port : Int
  api_key : String
  batch_size : Int
  timeout : Int
  retry_limit : Int
  compress : Bool
  tls_verify : Bool
  deriving DecidableEq, Repr

/-- The discovery section of the agent configuration. -/
structure CDiscoveryConfig where
  enabled : Bool
  interval_seconds : Int
  detect_organization : Bool
  detect_compliance : Bool
  include_network_info : Bool
  deriving DecidableEq, Repr

/-- The security section of the agent configuration. -/
structure CSecurityConfig where
  enabled : Bool
  rules_file : String
  enable_threat_intel : Bool
  enable_behavioral_analysis : Bool
  drop_noise : Bool
  deriving DecidableEq, Repr

/-- The logging section of the agent configuration. -/
structure CLoggingConfig where
  level : Int
  file_path : String
  console_output : Bool
  max_file_size : Int
  max_files : Int
  deriving DecidableEq, Repr

/-- The performance section of the agent configuration. -/
structure CPerformanceConfig where
  max_memory_mb : Int
  max_cpu_percent : Int
  enable_profiling : Bool
  deriving DecidableEq, Repr

/-- The agent configuration managed by config.c. -/
structure CAgentConfig where
  agent_id : String
  platform : CPlatformConfig
  discovery : CDiscoveryConfig
  security : CSecurityConfig
  logging : CLoggingConfig
  performance : CPerformanceConfig
  deriving DecidableEq, Repr

/-- default_config from config.c. -/
def default_config : CAgentConfig :=
  { agent_id := "threatguard-agent",
    platform :=
      { host := "api.bg-threat.com", port := 443, api_key := "",
        batch_size := 1000, timeout := 30, retry_limit := 3,
        compress := true, tls_verify := true },
    discovery :=
      { enabled := true, interval_seconds := 300,
        detect_organization := true, detect_compliance := true,
        include_network_info := true },
    security :=
      { enabled := true,
        rules_file := "/etc/threatguard-agent/security-rules.conf",
        enable_threat_intel := true, enable_behavioral_analysis := true,
        drop_noise := true },
    logging :=
      { level := TG_LOG_INFO,
        file_path := "/var/log/threatguard-agent/agent.log",
        console_output := false, max_file_size := 10485760,
        max_files := 5 },
    performance :=
      { max_memory_mb := 256, max_cpu_percent := 20,
        enable_profiling := false } }

/-- The level-name mapping shared by tg_config_load_logging_json and
tg_config_load_env_vars: an unknown name leaves the level unchanged. -/
def parseLogLevel (s : String) (current : Int) : Int :=
  if s = "trace" then TG_LOG_TRACE
  else if s = "debug" then TG_LOG_DEBUG
  else if s = "info" then TG_LOG_INFO
  else if s = "warn" then TG_LOG_WARN
  else if s = "error" then TG_LOG_ERROR
  else if s = "fatal" then TG_LOG_FATAL
  else current

/-- The platform object of the JSON file; `none` is an absent key or one
of the wrong JSON type (both leave the field untouched). -/
structure PlatformJson where
  host : Option String := none
  port : Option Int := none
  api_key : Option String := none
  batch_size : Option Int := none
  timeout : Option Int := none
  retry_limit : Option Int := none
  compress : Option Bool := none
  tls_verify : Option Bool := none
  deriving DecidableEq, Repr

/-- The discovery object of the JSON file. -/
structure DiscoveryJson where
  enabled : Option Bool := none
  interval_seconds : Option Int := none
  detect_organization : Option Bool := none
  detect_compliance : Option Bool := none
  include_network_info : Option Bool := none
  deriving DecidableEq, Repr

/-- The security object of the JSON file. -/
structure SecurityJson where
  enabled : Option Bool := none
  rules_file : Option String := none
  enable_threat_intel : Option Bool := none
  enable_behavioral_analysis : Option Bool := none
  drop_noise : Option Bool := none
  deriving DecidableEq, Repr

/-- The logging object of the JSON file (the level is a string name). -/
structure LoggingJson where
  level : Option String := none
  file_path : Option String := none
  console_output : Option Bool := none
  max_file_size : Option Int := none
  max_files : Option Int := none
  deriving DecidableEq, Repr

/-- The performance object of the JSON file. -/
structure PerformanceJson where
  max_memory_mb : Option Int := none
  max_cpu_percent : Option Int := none
  enable_profiling : Option Bool := none
  deriving DecidableEq, Repr

/-- A parsed configuration file. -/
structure ConfigJson where
  agent_id : Option String := none
  platform : Option PlatformJson := none
  discovery : Option DiscoveryJson := none
  security : Option SecurityJson := none
  logging : Option LoggingJson := none
  performance : Option PerformanceJson := none
  deriving DecidableEq, Repr

/-- tg_config_load_platform_json: every present field of the platform
object overwrites the current value. -/
def tg_config_load_platform_json (j : PlatformJson) (c : CAgentConfig) :
    CAgentConfig :=
  { c with platform :=
    { host := j.host.getD c.platform.host,
      port := j.port.getD c.platform.port,
      api_key := j.api_key.getD c.platform.api_key,
      batch_size := j.batch_size.getD c.platform.batch_size,
      timeout := j.timeout.getD c.platform.timeout,
      retry_limit := j.retry_limit.getD c.platform.retry_limit,
      compress := j.compress.getD c.platform.compress,
      tls_verify := j.tls_verify.getD c.platform.tls_verify } }

/-- tg_config_load_discovery_json. -/
def tg_config_load_discovery_json (j : DiscoveryJson) (c : CAgentConfig) :
    CAgentConfig :=
  { c with discovery :=
    { enabled := j.enabled.getD c.discovery.enabled,
      interval_seconds := j.interval_seconds.getD c.discovery.interval_seconds,
      detect_organization := j.detect_organization.getD c.discovery.detect_organization,
      detect_compliance := j.detect_compliance.getD c.discovery.detect_compliance,
      include_network_info := j.include_network_info.getD c.discovery.include_network_info } }

/-- tg_config_load_security_json. -/
def tg_config_load_security_json (j : SecurityJson) (c : CAgentConfig) :
    CAgentConfig :=
  { c with security :=
    { enabled := j.enabled.getD c.security.enabled,
      rules_file := j.rules_file.getD c.security.rules_file,
      enable_threat_intel := j.enable_threat_intel.getD c.security.enable_threat_intel,
      enable_behavioral_analysis :=
        j.enable_behavioral_analysis.getD c.security.enable_behavioral_analysis,
      drop_noise := j.drop_noise.getD c.security.drop_noise } }

/-- tg_config_load_logging_json: the level is parsed from its name; an
unrecognized name leaves the level unchanged. -/
def tg_config_load_logging_json (j : LoggingJson) (c : CAgentConfig) :
    CAgentConfig :=
  { c with logging :=
    { level :=
        match j.level with
        | some s => parseLogLevel s c.logging.level
        | none => c.logging.level,
      file_path := j.file_path.getD c.logging.file_path,
      console_output := j.console_output.getD c.logging.console_output,
      max_file_size := j.max_file_size.getD c.logging.max_file_size,
      max_files := j.max_files.getD c.logging.max_files } }

/-- tg_config_load_performance_json. -/
def tg_config_load_performance_json (j : PerformanceJson)
    (c : CAgentConfig) : CAgentConfig :=
  { c with performance :=
    { max_memory_mb := j.max_memory_mb.getD c.performance.max_memory_mb,
      max_cpu_percent := j.max_cpu_percent.getD c.performance.max_cpu_percent,
      enable_profiling := j.enable_profiling.getD c.performance.enable_profiling } }

/-- tg_config_load_json: apply each present section in order. -/
def tg_config_load_json (j : ConfigJson) (c : CAgentConfig) :
    CAgentConfig :=
  let c := match j.agent_id with
    | some v => { c with agent_id := v }
    | none => c
  let c := match j.platform with
    | some pj => tg_config_load_platform_json pj c
    | none => c
  let c := match j.discovery with
    | some dj => tg_config_load_discovery_json dj c
    | none => c
  let c := match j.security with
    | some sj => tg_config_load_security_json sj c
    | none => c
  let c := match j.logging with
    | some lj => tg_config_load_logging_json lj c
    | none => c
  match j.performance with
  | some fj => tg_config_load_performance_json fj c
  | none => c

/-- The environment variables tg_config_load_env_vars consults; `none` is
an unset variable. -/
structure EnvVars where
  TG_PLATFORM_HOST : Option String := none
  TG_PLATFORM_PORT : Option String := none
  TG_API_KEY : Option String := none
  TG_LOG_LEVEL : Option String := none
  TG_LOG_FILE : Option String := none
  TG_CONSOLE_OUTPUT : Option String := none
  deriving DecidableEq, Repr

/-- tg_config_load_env_vars: each set variable overwrites its field; the
port goes through atoi, the level through the name table, and
console_output is true exactly for the strings "1" and "true". -/
def tg_config_load_env_vars (env : EnvVars) (c : CAgentConfig) :
    CAgentConfig :=
  let c := match env.TG_PLATFORM_HOST with
    | some v => { c with platform := { c.platform with host := v } }
    | none => c
  let c := match env.TG_PLATFORM_PORT with
    | some v => { c with platform := { c.platform with port := atoi v } }
    | none => c
  let c := match env.TG_API_KEY with
    | some v => { c with platform := { c.platform with api_key := v } }
    | none => c
  let c := match env.TG_LOG_LEVEL with
    | some v => { c with logging :=
        { c.logging with level := parseLogLevel v c.logging.level } }
    | none => c
  let c := match env.TG_LOG_FILE with
    | some v => { c with logging := { c.logging with file_path := v } }
    | none => c
  match env.TG_CONSOLE_OUTPUT with
  | some v => { c with logging :=
      { c.logging with console_output := v = "1" ∨ v = "true" } }
  | none => c

/-- The discovery-interval clamp in tg_config_validate: a too-short
interval is raised to 60 s with a warning. -/
def tgValidateClampInterval (c : CAgentConfig) : CAgentConfig :=
  if c.discovery.interval_seconds < 60 then
    { c with discovery := { c.discovery with interval_seconds := 60 } }
  else c

/-- The memory clamp in tg_config_validate: a too-low limit is raised to
64 MB with a warning. -/
def tgValidateClampMemory (c : CAgentConfig) : CAgentConfig :=
  if c.performance.max_memory_mb < 64 then
    { c with performance := { c.performance with max_memory_mb := 64 } }
  else c

/-- tg_config_validate: fatal checks return nothing; the discovery
interval and the memory limit are clamped upward in place. -/
def tg_config_validate (c : CAgentConfig) : Option CAgentConfig :=
  if c.platform.host = "" then none
  else if c.platform.port ≤ 0 ∨ c.platform.port > 65535 then none
  else if c.platform.batch_size ≤ 0 ∨ c.platform.batch_size > 10000 then none
  else if (tgValidateClampInterval c).logging.level < TG_LOG_TRACE ∨
      (tgValidateClampInterval c).logging.level > TG_LOG_FATAL then none
  else if (tgValidateClampMemory
        (tgValidateClampInterval c)).performance.max_cpu_percent < 5 ∨
      (tgValidateClampMemory
        (tgValidateClampInterval c)).performance.max_cpu_percent > 100 then none
  else some (tgValidateClampMemory (tgValidateClampInterval c))

/-- tg_config_init: start from the built-in defaults, apply the
environment variables, then apply the configuration file when one was
given (and parsed), and validate.  `none` for the file also covers a file
that failed to load, which the C code tolerates with a warning. -/
def tg_config_init (env : EnvVars) (file : Option ConfigJson) :
    Option CAgentConfig :=
  let c := default_config
  let c := tg_config_load_env_vars env c
  let c := match file with
    | some j => tg_config_load_json j c
    | none => c
  tg_config_validate c

theorem tgValidateClampInterval_platform (c : CAgentConfig) :
    (tgValidateClampInterval c).platform = c.platform := by
  unfold tgValidateClampInterval; split_ifs <;> rfl

theorem tgValidateClampMemory_platform (c : CAgentConfig) :
    (tgValidateClampMemory c).platform = c.platform := by
  unfold tgValidateClampMemory; split_ifs <;> rfl

/-- Validation never changes the platform section. -/
theorem tg_config_validate_platform (c c' : CAgentConfig)
    (h : tg_config_validate c = some c') : c'.platform = c.platform := by
  unfold tg_config_validate at h
  split_ifs at h
  rw [Option.some.injEq] at h
  rw [← h, tgValidateClampMemory_platform, tgValidateClampInterval_platform]

/-- Of the section loaders that follow the platform section in
tg_config_load_json, none touches the platform section. -/
theorem tg_config_load_json_platform (j : ConfigJson) (pj : PlatformJson)
    (c : CAgentConfig) (hj : j.platform = some pj) :
    (tg_config_load_json j c).platform =
      (tg_config_load_platform_json pj
        (match j.agent_id with
         | some v => { c with agent_id := v }
         | none => c)).platform := by
  unfold tg_config_load_json
  rw [hj]
  cases j.agent_id <;> cases j.discovery <;> cases j.security <;>
    cases j.logging <;> cases j.performance <;>
    rfl

theorem tgValidateClampInterval_logging (c : CAgentConfig) :
    (tgValidateClampInterval c).logging = c.logging := by
  unfold tgValidateClampInterval; split_ifs <;> rfl

theorem tgValidateClampMemory_logging (c : CAgentConfig) :
    (tgValidateClampMemory c).logging = c.logging := by
  unfold tgValidateClampMemory; split_ifs <;> rfl

/-- Validation never changes the logging section. -/
theorem tg_config_validate_logging (c c' : CAgentConfig)
    (h : tg_config_validate c = some c') : c'.logging = c.logging := by
  unfold tg_config_validate at h
  split_ifs at h
  rw [Option.some.injEq] at h
  rw [← h, tgValidateClampMemory_logging, tgValidateClampInterval_logging]

/-- Of the section loaders in tg_config_load_json, only the logging
loader touches the logging section, and it reads only the logging
section of its input. -/
theorem tg_config_load_json_logging (j : ConfigJson) (lj : LoggingJson)
    (c : CAgentConfig) (hj : j.logging = some lj) :
    (tg_config_load_json j c).logging =
      (tg_config_load_logging_json lj c).logging := by
  unfold tg_config_load_json
  rw [hj]
  cases j.agent_id <;> cases j.platform <;> cases j.discovery <;>
    cases j.security <;> cases j.performance <;> rfl

/-- The value of every field tg_config_load_env_vars can write, as a
function of the corresponding environment variable. -/
theorem tg_config_load_env_vars_spec (env : EnvVars) (c : CAgentConfig) :
    (tg_config_load_env_vars env c).platform.host =
      env.TG_PLATFORM_HOST.getD c.platform.host ∧
    (tg_config_load_env_vars env c).platform.port =
      (match env.TG_PLATFORM_PORT with
       | some v => atoi v
       | none => c.platform.port) ∧
    (tg_config_load_env_vars env c).platform.api_key =
      env.TG_API_KEY.getD c.platform.api_key ∧
    (tg_config_load_env_vars env c).logging.level =
      (match env.TG_LOG_LEVEL with
       | some v => parseLogLevel v c.logging.level
       | none => c.logging.level) ∧
    (tg_config_load_env_vars env c).logging.file_path =
      env.TG_LOG_FILE.getD c.logging.file_path ∧
    (tg_config_load_env_vars env c).logging.console_output =
      (match env.TG_CONSOLE_OUTPUT with
       | some v => decide (v = "1" ∨ v = "true")
       | none => c.logging.console_output) := by
  obtain ⟨h1, h2, h3, h4, h5, h6⟩ := env
  cases h1 <;> cases h2 <;> cases h3 <;> cases h4 <;> cases h5 <;>
    cases h6 <;> exact ⟨rfl, rfl, rfl, rfl, rfl, rfl⟩

/-- A recognized level name maps to the same code whatever the current
level is. -/
theorem parseLogLevel_const (s : String)
    (hs : s = "trace" ∨ s = "debug" ∨ s = "info" ∨ s = "warn" ∨
      s = "error" ∨ s = "fatal") (x y : Int) :
    parseLogLevel s x = parseLogLevel s y := by
  rcases hs with h | h | h | h | h | h <;> subst h <;> rfl

/-! ### Claim C5: configuration precedence -/

/-- C5 (amended).  The file is applied after the environment, so for
every configuration key settable from both sources — platform host, port
and api_key (TG_PLATFORM_HOST, TG_PLATFORM_PORT, TG_API_KEY), and logging
level, file path and console output (TG_LOG_LEVEL, TG_LOG_FILE,
TG_CONSOLE_OUTPUT) — the value present in the file is the one in effect
after a successful initialization; environment variables override only
the built-in defaults and remain in effect when no configuration file is
loaded.  (A file log level acts through the name table, so its clause is
stated for the recognized level names; an unrecognized name leaves the
level untouched in both sources.) -/
theorem C5_precedence :
    (∀ (env : EnvVars) (j : ConfigJson) (pj : PlatformJson)
        (c : CAgentConfig),
      j.platform = some pj →
      tg_config_init env (some j) = some c →
      (∀ v, pj.host = some v → c.platform.host = v) ∧
      (∀ n, pj.port = some n → c.platform.port = n) ∧
      (∀ k, pj.api_key = some k → c.platform.api_key = k)) ∧
    (∀ (env : EnvVars) (j : ConfigJson) (lj : LoggingJson)
        (c : CAgentConfig),
      j.logging = some lj →
      tg_config_init env (some j) = some c →
      (∀ f, lj.file_path = some f → c.logging.file_path = f) ∧
      (∀ b, lj.console_output = some b → c.logging.console_output = b) ∧
      (∀ s, lj.level = some s →
        (s = "trace" ∨ s = "debug" ∨ s = "info" ∨ s = "warn" ∨
          s = "error" ∨ s = "fatal") →
        c.logging.level = parseLogLevel s TG_LOG_INFO)) ∧
    (∀ (env : EnvVars) (c : CAgentConfig),
      tg_config_init env none = some c →
      (∀ h, env.TG_PLATFORM_HOST = some h → c.platform.host = h) ∧
      (∀ p, env.TG_PLATFORM_PORT = some p → c.platform.port = atoi p) ∧
      (∀ k, env.TG_API_KEY = some k → c.platform.api_key = k) ∧
      (∀ s, env.TG_LOG_LEVEL = some s →
        c.logging.level = parseLogLevel s TG_LOG_INFO) ∧
      (∀ f, env.TG_LOG_FILE = some f → c.logging.file_path = f) ∧
      (∀ v, env.TG_CONSOLE_OUTPUT = some v →
        c.logging.console_output = decide (v = "1" ∨ v = "true"))) := by
  refine ⟨?_, ?_, ?_⟩
  · intro env j pj c hj hinit
    unfold tg_config_init at hinit
    have hp := tg_config_validate_platform _ _ hinit
    rw [tg_config_load_json_platform j pj _ hj] at hp
    refine ⟨?_, ?_, ?_⟩
    · intro v hv; rw [hp]; simp [tg_config_load_platform_json, hv]
    · intro n hn; rw [hp]; simp [tg_config_load_platform_json, hn]
    · intro k hk; rw [hp]; simp [tg_config_load_platform_json, hk]
  · intro env j lj c hj hinit
    unfold tg_config_init at hinit
    have hl := tg_config_validate_logging _ _ hinit
    rw [tg_config_load_json_logging j lj _ hj] at hl
    refine ⟨?_, ?_, ?_⟩
    · intro f hf; rw [hl]; simp [tg_config_load_logging_json, hf]
    · intro b hb; rw [hl]; simp [tg_config_load_logging_json, hb]
    · intro s hsv hs
      rw [hl]
      have hstep : (tg_config_load_logging_json lj
          (tg_config_load_env_vars env default_config)).logging.level =
          parseLogLevel s
            (tg_config_load_env_vars env default_config).logging.level := by
        simp [tg_config_load_logging_json, hsv]
      rw [hstep]
      exact parseLogLevel_const s hs _ _
  · intro env c hinit
    unfold tg_config_init at hinit
    have hp := tg_config_validate_platform _ _ hinit
    have hl := tg_config_validate_logging _ _ hinit
    have hs := tg_config_load_env_vars_spec env default_config
    refine ⟨?_, ?_, ?_, ?_, ?_, ?_⟩
    · intro h hh; rw [hp, hs.1, hh]; rfl
    · intro p hp2; rw [hp, hs.2.1, hp2]
    · intro k hk; rw [hp, hs.2.2.1, hk]; rfl
    · intro s hsv; rw [hl, hs.2.2.2.1, hsv]; rfl
    · intro f hf; rw [hl, hs.2.2.2.2.1, hf]; rfl
    · intro v hv; rw [hl, hs.2.2.2.2.2, hv]

/-- Environment for the C5 scenario: only TG_PLATFORM_HOST is set. -/
def envC5 : EnvVars := { TG_PLATFORM_HOST := some "env.example.com" }

/-- Configuration file for the C5 scenario: only platform.host is set. -/
def jsonC5 : ConfigJson :=
  { platform := some { host := some "file.example.com" } }

/-- C5 counterexample to the claim as stated: host is set both by
TG_PLATFORM_HOST ("env.example.com") and by the file
("file.example.com"); after initialization the effective value is the
file's, not the environment's. -/
theorem C5_counterexample :
    (tg_config_init envC5 (some jsonC5)).map (fun c => c.platform.host) =
      some "file.example.com" ∧
    "file.example.com" ≠ "env.example.com" := by
  decide

/-- Environment for the C5 witness: all six variables set. -/
def envC5full : EnvVars :=
  { TG_PLATFORM_HOST := some "env.example.com",
    TG_PLATFORM_PORT := some "8443",
    TG_API_KEY := some "env-key",
    TG_LOG_LEVEL := some "debug",
    TG_LOG_FILE := some "/var/log/env.log",
    TG_CONSOLE_OUTPUT := some "true" }

/-- File platform section for the C5 witness: all three double-sourced
platform keys set. -/
def pjC5 : PlatformJson :=
  { host := some "file.example.com", port := some 9443,
    api_key := some "file-key" }

/-- File logging section for the C5 witness: all three double-sourced
logging keys set. -/
def ljC5 : LoggingJson :=
  { level := some "error", file_path := some "/var/log/file.log",
    console_output := some false }

/-- Configuration file for the C5 witness. -/
def jsonC5full : ConfigJson :=
  { platform := some pjC5, logging := some ljC5 }

/-- The configuration produced with both sources present. -/
def cfgC5file : CAgentConfig :=
  tg_config_load_json jsonC5full
    (tg_config_load_env_vars envC5full default_config)

/-- The configuration produced with the environment only. -/
def cfgC5env : CAgentConfig :=
  tg_config_load_env_vars envC5full default_config

/-- Witness for C5: the amended theorem at a concrete scenario setting
all six double-sourced keys in both sources — the file's values win for
every one of them — and, with the file absent, the environment values are
in effect. -/
theorem C5_precedence_witness :
    (cfgC5file.platform.host = "file.example.com" ∧
     cfgC5file.platform.port = 9443 ∧
     cfgC5file.platform.api_key = "file-key" ∧
     cfgC5file.logging.file_path = "/var/log/file.log" ∧
     cfgC5file.logging.console_output = false ∧
     cfgC5file.logging.level = parseLogLevel "error" TG_LOG_INFO) ∧
    (cfgC5env.platform.host = "env.example.com" ∧
     cfgC5env.platform.port = atoi "8443" ∧
     cfgC5env.platform.api_key = "env-key" ∧
     cfgC5env.logging.level = parseLogLevel "debug" TG_LOG_INFO ∧
     cfgC5env.logging.file_path = "/var/log/env.log" ∧
     cfgC5env.logging.console_output =
       decide ("true" = "1" ∨ "true" = "true")) := by
  have hA := C5_precedence.1 envC5full jsonC5full pjC5 cfgC5file
    rfl (by decide)
  have hB := C5_precedence.2.1 envC5full jsonC5full ljC5 cfgC5file
    rfl (by decide)
  have hC := C5_precedence.2.2 envC5full cfgC5env (by decide)
  exact ⟨⟨hA.1 _ rfl, hA.2.1 _ rfl, hA.2.2 _ rfl,
          hB.1 _ rfl, hB.2.1 _ rfl, hB.2.2 _ rfl (by decide)⟩,
         hC.1 _ rfl, hC.2.1 _ rfl, hC.2.2.1 _ rfl, hC.2.2.2.1 _ rfl,
         hC.2.2.2.2.1 _ rfl, hC.2.2.2.2.2 _ rfl⟩

end ThreatGuard
